import Mathlib

/-!
# Verification of the image-check-agent network probes

Shallow embedding of `src/tools/image_tools.py` and `src/tools/common_tools.py`.

Pure string/byte computations (`_parse_image_name`, `create_dns_query`) are
translated directly.  Network-facing probes are modelled as functions of the
network's observable behaviour: each HTTP/UDP interaction outcome is an
explicit input (an oracle value), wall-clock measurements are abstract
parameters, and socket lifecycle is tracked as an explicit trace component.
Python strings are modelled via `List Char` (`String.data`); `str.split(sep)`
for a one-character separator is `splitChar`, substring membership `needle in s`
is `listContains`.
-/

namespace ImageCheckAgent

/-- Python `s.split(sep)` for a single-character separator: splits at every
occurrence, keeping empty pieces; `''.split(sep) == ['']`. -/
def splitChar (sep : Char) : List Char → List (List Char)
  | [] => [[]]
  | c :: cs =>
    if c = sep then [] :: splitChar sep cs
    else
      match splitChar sep cs with
      | [] => [[c]]
      | r :: rs => (c :: r) :: rs

/-- Python `s.split(sep, 1)` at the first occurrence of `sep`; the caller has
already checked that `sep` occurs. Returns (before, after). -/
def splitFirst (sep : Char) : List Char → List Char × List Char
  | [] => ([], [])
  | c :: cs =>
    if c = sep then ([], cs)
    else
      let (l, r) := splitFirst sep cs
      (c :: l, r)

/-- Python `needle in hay` substring test. -/
def listContains [DecidableEq α] (hay needle : List α) : Bool :=
  needle.isPrefixOf hay ||
    match hay with
    | [] => false
    | _ :: t => listContains t needle

/-- Python `'/'.join parts` on character lists. -/
def joinSlash : List (List Char) → List Char
  | [] => []
  | [l] => l
  | l :: ls => l ++ '/' :: joinSlash ls

/-- The `{registry, repository, tag}` mapping returned by `_parse_image_name`. -/
structure ImageRef where
  registry : String
  repository : String
  tag : String
deriving DecidableEq, Repr

/-- Strips one leading `https://` or `http://`, as in `image_tools.py` lines
41-44 (`if registry.startswith('https://') ... elif ... 'http://'`). -/
def stripScheme (r : List Char) : List Char :=
  if "https://".data.isPrefixOf r then r.drop 8
  else if "http://".data.isPrefixOf r then r.drop 7
  else r

/-- A registry string beginning with two stacked scheme prefixes — the inputs
on which stripping a single prefix leaves another one behind. -/
def hasDoubledScheme (r : List Char) : Bool :=
  "https://https://".data.isPrefixOf r || "https://http://".data.isPrefixOf r ||
    "http://https://".data.isPrefixOf r || "http://http://".data.isPrefixOf r

/-- Docker Hub default registry host. -/
def defaultRegistry : String := "registry-1.docker.io"

/-- Step 1 of `_parse_image_name` when the registry is parsed from
`image_name` (lines 27-38): split on `/`; a first segment with a `.` and more
segments is the registry; a lone segment with both `.` and `:` is a bare
`host:port` registry with an emptied image name; otherwise Docker Hub.
Returns (registry before scheme stripping, remaining image name). -/
def resolveRegistryFromName (image_name : List Char) : List Char × List Char :=
  let parts := splitChar '/' image_name
  let head := parts.headD []
  if '.' ∈ head ∧ parts.length > 1 then
    (head, joinSlash parts.tail)
  else if '.' ∈ head ∧ parts.length = 1 ∧ ':' ∈ head then
    (head, [])
  else
    (defaultRegistry.data, image_name)

/-- Step 1 of `_parse_image_name` (lines 22-38).  Python truthiness of
`registry_override` means an empty-string override behaves like `None`. -/
def resolveRegistry (image_name : List Char) (registry_override : Option (List Char)) :
    List Char × List Char :=
  match registry_override with
  | some r => if r ≠ [] then (r, image_name) else resolveRegistryFromName image_name
  | none => resolveRegistryFromName image_name

/-- Model of `_parse_image_name` from `src/tools/image_tools.py` lines 15-61, on
character lists.  Returns (registry, repository, tag). -/
def parseImageNameL (image_name : List Char) (registry_override : Option (List Char)) :
    List Char × List Char × List Char :=
  let rn := resolveRegistry image_name registry_override
  let registry := stripScheme rn.1
  let name := rn.2
  -- 2. repository and tag
  let rt := if ':' ∉ name then (name, "latest".data) else splitFirst ':' name
  -- 3. Docker Hub official images get the 'library/' prefix
  let repository :=
    if registry = defaultRegistry.data ∧ '/' ∉ rt.1 then "library/".data ++ rt.1
    else rt.1
  (registry, repository, rt.2)

/-- The parser `_parse_image_name`, wrapped over `String`. -/
def parse_image_name (image_name : String) (registry_override : Option String) : ImageRef :=
  let r := parseImageNameL image_name.data (registry_override.map String.data)
  ⟨⟨r.1⟩, ⟨r.2.1⟩, ⟨r.2.2⟩⟩

/-! ## DNS codec (`create_dns_query`, `common_tools.py` lines 30-64) -/

/-- Model of `struct.pack('!H', n)` for `n < 65536`: two big-endian bytes. -/
def pack16 (n : Nat) : List Nat := [n / 256 % 256, n % 256]

/-- UTF-8 bytes of a Python string (`domain.encode()`), as `Nat`s; this is
`String.toUTF8` unfolded to its list of bytes. -/
def strBytes (s : String) : List Nat :=
  (s.data.flatMap String.utf8EncodeChar).map (fun b => b.toNat)

/-- Python `bs.split(b'.')` on a byte list: split at every occurrence of
byte `sep`, keeping empty pieces. -/
def splitByte (sep : Nat) : List Nat → List (List Nat)
  | [] => [[]]
  | b :: bs =>
    if b = sep then [] :: splitByte sep bs
    else
      match splitByte sep bs with
      | [] => [[b]]
      | r :: rs => (b :: r) :: rs

/-- The qname encoding loop of `create_dns_query`: for each label one length
byte then the raw bytes, terminated by a zero byte. -/
def encodeQName (labels : List (List Nat)) : List Nat :=
  (labels.map (fun l => l.length :: l)).flatten ++ [0]

/-- Model of `create_dns_query` from `src/tools/common_tools.py` lines 30-64.  The random
transaction id is an explicit parameter.  `bytes([len(part)])` raises
`ValueError` when a label is 256 bytes or longer, so the result is an `Option`:
`none` models the raised exception. -/
def create_dns_query (transaction_id : Nat) (domain : String) (record_type : Nat) :
    Option (List Nat) :=
  let flags := 0x0100
  let header := pack16 transaction_id ++ pack16 flags ++ pack16 1 ++ pack16 0 ++
    pack16 0 ++ pack16 0
  let labels := splitByte 46 (strBytes domain)
  if labels.all (fun l => l.length < 256) then
    some (header ++ encodeQName labels ++ pack16 record_type ++ pack16 1)
  else none

/-! ## DNS probe (`check_dns`, `common_tools.py` lines 66-163)

The UDP conversation is an oracle: the outcome of `sendto`, the outcome of
`recvfrom`, and the outcome of the secondary `getaddrinfo` lookup are inputs.
`response_time_ms` is an abstract measured value `rt` (a float in the source;
the claims depend only on its presence), `now` stands for the ISO timestamp.
The second trace component records the socket lifecycle. -/

/-- Fate of the probe's socket on return: never created, created but not
closed on the taken exit path, or closed before the result was built. -/
inductive SockState where
  | notOpened
  | leaked
  | closed
deriving DecidableEq, Repr

/-- Outcome of `sock.sendto`: completed, or raised (e.g. `gaierror` on a bad
nameserver host). -/
inductive SendOutcome where
  | sent
  | exn (msg : String)
deriving DecidableEq, Repr

/-- Outcome of `sock.recvfrom(512)`: a reply datagram, or a raised exception
(e.g. `socket.timeout`). -/
inductive RecvOutcome where
  | datagram (bytes : List Nat)
  | exn (msg : String)
deriving DecidableEq, Repr

/-- Address family of one `getaddrinfo` entry (`addr[0]`). -/
inductive AddrFamily where
  | inet
  | inet6
  | other
deriving DecidableEq, Repr, BEq

/-- Outcome of `socket.getaddrinfo(domain, None)`: a `gaierror` (the `.error`
case) or a list of (family, address) pairs (`addr[0]`, `addr[4][0]`). -/
def GaiOutcome := Except String (List (AddrFamily × String))

/-- The result mapping returned by `check_dns`. -/
structure DnsResult where
  success : Bool
  domain : String
  record_type : String
  records : List String
  response_time_ms : Option Nat
  timestamp : String
  error : Option String
deriving DecidableEq, Repr

/-- The `record_types` mapping in `check_dns`. -/
def recordTypes (rt : String) : Option Nat :=
  if rt = "A" then some 1
  else if rt = "AAAA" then some 28
  else if rt = "MX" then some 15
  else if rt = "CNAME" then some 5
  else none

/-- The failure dictionary built by `check_dns`'s `except` handler (lines
154-163): empty records, `response_time_ms: None`, `error: str(e)`. -/
def dnsFailure (domain record_type now msg : String) : DnsResult :=
  ⟨false, domain, record_type, [], none, now, some msg⟩

/-- Model of `check_dns` from `src/tools/common_tools.py` lines 66-163.  Returns the
result mapping together with the socket's fate.  The socket is created after
the record-type check; `sock.close()` is called only on the line after a
successful `recvfrom`, so every raised exception before that point leaves the
socket open.  `list(set(records))` is modelled as `List.eraseDups` (the
source's set order is unspecified; the claims only inspect emptiness). -/
def check_dns (domain record_type nameserver now : String) (rt : Nat)
    (transaction_id : Nat) (send : SendOutcome) (recv : RecvOutcome)
    (gai : GaiOutcome) : DnsResult × SockState :=
  let _ := nameserver
  match recordTypes record_type with
  | none =>
    (⟨false, domain, record_type, [], none, now,
      some ("Unsupported record type: " ++ record_type)⟩, .notOpened)
  | some qtype =>
    -- socket.socket(...); sock.settimeout(3.0)
    match create_dns_query transaction_id domain qtype with
    | none =>
      -- bytes([len(part)]) raised ValueError, caught by the broad handler
      (dnsFailure domain record_type now "bytes must be in range(0, 256)", .leaked)
    | some _query =>
      match send with
      | .exn msg => (dnsFailure domain record_type now msg, .leaked)
      | .sent =>
        match recv with
        | .exn msg => (dnsFailure domain record_type now msg, .leaked)
        | .datagram response =>
          -- sock.close() happens here, before any parsing
          if response.length < 12 then
            (dnsFailure domain record_type now "Response too short", .closed)
          else
            let flags := response.getD 2 0 * 256 + response.getD 3 0
            let ancount := response.getD 6 0 * 256 + response.getD 7 0
            let rcode := flags % 16
            if rcode ≠ 0 then
              (dnsFailure domain record_type now
                ("DNS response code: " ++ toString rcode), .closed)
            else
              let records :=
                if ancount > 0 then
                  match gai with
                  | .error _ => []  -- except socket.gaierror: pass
                  | .ok addrs =>
                    (addrs.filter (fun a =>
                      (record_type = "A" ∧ a.1 = .inet) ∨
                        (record_type = "AAAA" ∧ a.1 = .inet6))).map (·.2)
                else []
              (⟨true, domain, record_type, records.eraseDups, some rt, now, none⟩,
                .closed)

/-! ## TCP port probe (`check_port`, `common_tools.py` lines 165-206) -/

/-- Outcome of `sock.connect_ex((host, port))`: an OS error code (0 for
success), or a raised exception (e.g. `gaierror` on a bad hostname). -/
inductive ConnectOutcome where
  | code (n : Int)
  | exn (msg : String)
deriving DecidableEq, Repr

/-- The result mapping returned by `check_port`. -/
structure PortResult where
  success : Bool
  host : String
  port : Nat
  response_time_ms : Option Nat
  timestamp : String
  error : Option String
deriving DecidableEq, Repr

/-- Model of `check_port` from `src/tools/common_tools.py` lines 165-206, with the
socket's fate.  `sock.close()` is called only after `connect_ex` returns;
a raised exception jumps to the handler without closing the socket. -/
def check_port (host : String) (port : Nat) (now : String) (rt : Nat)
    (conn : ConnectOutcome) : PortResult × SockState :=
  match conn with
  | .code n =>
    (⟨n = 0, host, port, some rt, now,
      if n = 0 then none else some ("Port " ++ toString port ++ " is closed")⟩,
      .closed)
  | .exn msg => (⟨false, host, port, none, now, some msg⟩, .leaked)

/-! ## HTTP probe (`check_http_response`, `common_tools.py` lines 208-259)

The single `requests.request(...)` call is an oracle: either a response (any
status code; the body only matters through `len(response.content)`) or a
raised exception.  Method/headers/body/timeout/TLS-flag only shape the request
that the oracle answers, so they do not appear in the result construction. -/

/-- Outcome of the one `requests.request` call. -/
inductive HttpOutcome where
  | resp (status : Nat) (content_length : Nat)
  | exn (msg : String)
deriving DecidableEq, Repr

/-- The result mapping returned by `check_http_response`. -/
structure HttpResult where
  success : Bool
  url : String
  status_code : Option Nat
  response_time_ms : Option Nat
  content_length : Option Nat
  timestamp : String
  error : Option String
deriving DecidableEq, Repr

/-- Model of `check_http_response` from `src/tools/common_tools.py` lines 208-259. -/
def check_http_response (url method now : String) (rt : Nat) (out : HttpOutcome) :
    HttpResult :=
  let _ := method
  match out with
  | .resp status len =>
    ⟨true, url, some status, some rt, some len, now, none⟩
  | .exn msg =>
    ⟨false, url, none, none, none, now, some msg⟩

/-! ## Registry manifest probe (`_check_image_manifest_sync`, `image_tools.py`
lines 63-160)

Two HTTP interactions are oracles: the token `GET` (consulted only when the
registry is Docker Hub or a known mirror) and the manifest `HEAD`.
`requests.Response.raise_for_status` raises exactly for statuses in
`[400, 600)`; its `HTTPError` message text comes from the `requests` library
and is modelled by `httpErrorMsg` (no claim depends on its exact form).
The trace records whether the token endpoint was contacted and, when the
manifest `HEAD` was issued, its URL and `Authorization` bearer value.
`result = none` models the Python function falling off the end of the `try`
block and returning `None`. -/

deriving instance DecidableEq for Except

/-- Outcome of `requests.get(token_url)` combined with reading the body:
a transport-level `RequestException`, some other raised exception, or a
response with its status and the value of `.json().get('token')` (`.error`
when reading/decoding the JSON body raises). -/
inductive TokenOutcome where
  | reqExn (msg : String)
  | otherExn (msg : String)
  | resp (status : Nat) (body : Except String (Option String))
deriving DecidableEq, Repr

/-- Outcome of `requests.head(manifest_url, ...)`. -/
inductive ManifestOutcome where
  | reqExn (msg : String)
  | otherExn (msg : String)
  | resp (status : Nat)
deriving DecidableEq, Repr

/-- The result mapping returned by `_check_image_manifest_sync`.  Every branch
that builds a dictionary sets a measured `response_time_ms`, so the field is
not optional here. -/
structure ManifestResult where
  success : Bool
  image_name : String
  registry : String
  response_time_ms : Nat
  timestamp : String
  error : Option String
  status_code : Option Nat
  message : String
deriving DecidableEq, Repr

/-- The `HEAD` request issued in stage 3: its URL and the bearer token of its
`Authorization` header, when one was attached (`if token:` is false for both
`None` and an empty string). -/
structure ManifestRequest where
  url : String
  authorization : Option String
deriving DecidableEq, Repr

/-- Observable trace of one `_check_image_manifest_sync` call.  `result = none`
means the function returned Python `None` (fell off the `try` block). -/
structure ProbeTrace where
  result : Option ManifestResult
  tokenRequested : Bool
  manifestRequest : Option ManifestRequest
deriving DecidableEq, Repr

/-- Message of the `HTTPError` raised by `raise_for_status` for a status in
`[400, 600)`; the exact text is produced by the `requests` library. -/
def httpErrorMsg (status : Nat) : String :=
  toString status ++ " Error"

/-- The library call `raise_for_status` raises exactly for statuses in `[400, 600)`. -/
def raisesForStatus (status : Nat) : Bool :=
  400 ≤ status ∧ status < 600

/-- The allowlist test at `image_tools.py` lines 73-75: Docker Hub itself, any
host ending in `docker.io`, or any host containing `daocloud.io`. -/
def isDockerHubOrMirror (registry_host : String) : Bool :=
  registry_host = defaultRegistry ||
    "docker.io".data.isSuffixOf registry_host.data ||
    listContains registry_host.data "daocloud.io".data

/-- The failure dictionary of the `except requests.exceptions.RequestException`
handler (lines 137-148): `error` is the prefixed text, `message` the bare one,
`status_code` is `None`. -/
def requestErrorResult (image_name registry_host now : String) (rt : Nat)
    (msg : String) : ManifestResult :=
  ⟨false, image_name, registry_host, rt, now,
    some ("HTTP Request Error: " ++ msg), none, msg⟩

/-- The failure dictionary of the broad `except Exception` handler (lines
149-160). -/
def unexpectedErrorResult (image_name registry_host now : String) (rt : Nat)
    (msg : String) : ManifestResult :=
  ⟨false, image_name, registry_host, rt, now,
    some ("An unexpected error occurred: " ++ msg), none, msg⟩

/-- Stage 2 of `_check_image_manifest_sync` (lines 82-93): the conditional
token fetch.  Consulted only when `mirror` holds; `raise_for_status` on the
token response or any raised exception is fatal (`.error` carries the returned
failure dictionary), otherwise the optional `token` field is the result. -/
def tokenStage (image_name registry_host now : String) (rt : Nat) (mirror : Bool)
    (tok : TokenOutcome) : Except ManifestResult (Option String) :=
  if mirror then
    match tok with
    | .reqExn msg => .error (requestErrorResult image_name registry_host now rt msg)
    | .otherExn msg => .error (unexpectedErrorResult image_name registry_host now rt msg)
    | .resp status body =>
      if raisesForStatus status then
        .error (requestErrorResult image_name registry_host now rt (httpErrorMsg status))
      else
        match body with
        | .error msg =>
          -- JSONDecodeError is a RequestException subclass
          .error (requestErrorResult image_name registry_host now rt msg)
        | .ok token => .ok token
  else .ok none

/-- Model of `_check_image_manifest_sync` from `src/tools/image_tools.py` lines 63-160.
Stage 1 resolves the reference; stage 2 conditionally fetches a bearer token
(fatal only when `raise_for_status` or the request itself raises); stage 3
issues the manifest `HEAD` and classifies 200 / 404 / `raise_for_status` /
exception — any remaining status falls off the `try` block, returning `None`. -/
def check_image_manifest_sync (image_name : String) (registry : Option String)
    (now : String) (rt : Nat) (tok : TokenOutcome) (man : ManifestOutcome) :
    ProbeTrace :=
  let parsed := parse_image_name image_name registry
  let registry_host := parsed.registry
  let repository := parsed.repository
  let tag := parsed.tag
  let mirror := isDockerHubOrMirror registry_host
  match tokenStage image_name registry_host now rt mirror tok with
  | .error r => ⟨some r, mirror, none⟩
  | .ok token =>
    let req : ManifestRequest :=
      ⟨"https://" ++ registry_host ++ "/v2/" ++ repository ++ "/manifests/" ++ tag,
        match token with
        | some t => if t ≠ "" then some t else none
        | none => none⟩
    match man with
    | .reqExn msg =>
      ⟨some (requestErrorResult image_name registry_host now rt msg), mirror, some req⟩
    | .otherExn msg =>
      ⟨some (unexpectedErrorResult image_name registry_host now rt msg), mirror, some req⟩
    | .resp status =>
      if status = 200 then
        ⟨some ⟨true, image_name, registry_host, rt, now, none, some 200,
          "Image manifest found (Status: 200)"⟩, mirror, some req⟩
      else if status = 404 then
        ⟨some ⟨false, image_name, registry_host, rt, now,
          some "Image manifest not found (Status: 404)", some 404,
          "Image manifest not found (Status: 404)"⟩, mirror, some req⟩
      else if raisesForStatus status then
        ⟨some (requestErrorResult image_name registry_host now rt (httpErrorMsg status)),
          mirror, some req⟩
      else
        ⟨none, mirror, some req⟩

/-! ## Claims -/

/-- C1 (counterexample): contrary to the spec's example, `_parse_image_name`
does not map `"nginx:1.25"` to Docker Hub's `library/nginx` at tag `1.25`: the
bare `host:port` heuristic fires because the tag `1.25` contains a dot, so the
whole string becomes the registry and the repository is empty. -/
theorem parse_examples_nginx_refuted :
    parse_image_name "nginx:1.25" none ≠
      ⟨"registry-1.docker.io", "library/nginx", "1.25"⟩ ∧
    parse_image_name "nginx:1.25" none = ⟨"nginx:1.25", "", "latest"⟩ := by
  decide

/-- C1 (amended): with no registry override, `_parse_image_name` maps
`"hello-world"` to `{registry-1.docker.io, library/hello-world, latest}` and
`"myregistry.com/myimage:v2"` to `{myregistry.com, myimage, v2}`; but
`"nginx:1.25"` is taken for a bare `host:port` registry (its first `/`-segment
contains both `.` and `:`), yielding `{nginx:1.25, "", latest}`. -/
theorem parse_examples :
    parse_image_name "hello-world" none =
        ⟨"registry-1.docker.io", "library/hello-world", "latest"⟩ ∧
      parse_image_name "myregistry.com/myimage:v2" none =
        ⟨"myregistry.com", "myimage", "v2"⟩ ∧
      parse_image_name "nginx:1.25" none = ⟨"nginx:1.25", "", "latest"⟩ := by
  decide

set_option maxRecDepth 40000 in
/-- C2 (counterexample): `create_dns_query` does not return a datagram for
every domain string: a domain whose (single) label is 256 bytes long makes
`bytes([len(part)])` raise `ValueError`, modelled as `none`. -/
theorem create_dns_query_long_label_refuted :
    create_dns_query 7 (String.mk (List.replicate 256 'a')) 1 = none := by
  decide

/-- C2 (amended): for every transaction id in `[0, 65535]`, every supported
record-type code, and every domain all of whose `.`-separated byte labels are
shorter than 256 bytes, `create_dns_query` returns the 12-byte header
(id, flags `0x0100`, qd=1, an=ns=ar=0, big-endian 16-bit fields) followed by
the length-prefixed, zero-terminated qname, then qtype and qclass=1. -/
theorem create_dns_query_layout (tid : Nat) (domain : String) (rtype : Nat)
    (htid : tid < 65536)
    (hrt : rtype = 1 ∨ rtype = 28 ∨ rtype = 15 ∨ rtype = 5)
    (hlab : ∀ l ∈ splitByte 46 (strBytes domain), l.length < 256) :
    create_dns_query tid domain rtype =
      some ([tid / 256, tid % 256, 1, 0, 0, 1, 0, 0, 0, 0, 0, 0] ++
        encodeQName (splitByte 46 (strBytes domain)) ++ [0, rtype, 0, 1]) := by
  have hall : (splitByte 46 (strBytes domain)).all (fun l => l.length < 256) = true := by
    rw [List.all_eq_true]
    intro l hl
    exact decide_eq_true (hlab l hl)
  have hdiv : tid / 256 < 256 := by omega
  have h1 : tid / 256 % 256 = tid / 256 := Nat.mod_eq_of_lt hdiv
  rcases hrt with h | h | h | h <;> subst h <;>
    simp [create_dns_query, hall, pack16, h1]

/-- Witness for C2 at `"example.com"`, record type A, id `0x1234`: the qname is
`07 'example' 03 'com' 00`, followed by qtype=1, qclass=1. -/
theorem create_dns_query_layout_witness :
    create_dns_query 4660 "example.com" 1 =
      some ([18, 52, 1, 0, 0, 1, 0, 0, 0, 0, 0, 0] ++
        encodeQName (splitByte 46 (strBytes "example.com")) ++ [0, 1, 0, 1]) ∧
    encodeQName (splitByte 46 (strBytes "example.com")) =
      [7, 101, 120, 97, 109, 112, 108, 101, 3, 99, 111, 109, 0] := by
  refine ⟨create_dns_query_layout 4660 "example.com" 1 (by decide)
    (Or.inl rfl) (by decide), by decide⟩

/-- C6: `check_http_response` succeeds exactly when the single request does not
raise: any completed response — status 500 included — yields `success=true`
with status code, timing and content length populated, while a raised
transport exception yields `success=false` with those three fields `None` and
the exception text as `error`. -/
theorem check_http_response_success_iff (url method now : String) (rt : Nat)
    (out : HttpOutcome) :
    ((check_http_response url method now rt out).success = true ↔
        ∃ s c, out = .resp s c) ∧
      (∀ s c, out = .resp s c →
        check_http_response url method now rt out =
          ⟨true, url, some s, some rt, some c, now, none⟩) ∧
      (∀ m, out = .exn m →
        check_http_response url method now rt out =
          ⟨false, url, none, none, none, now, some m⟩) := by
  cases out <;> simp [check_http_response]

/-- Witness for C6: a completed HTTP 500 response still reports
`success=true` with `status_code=500`. -/
theorem check_http_response_success_iff_witness :
    (check_http_response "https://example.com" "GET" "t" 4 (.resp 500 12)).success
        = true ∧
      check_http_response "https://example.com" "GET" "t" 4 (.resp 500 12) =
        ⟨true, "https://example.com", some 500, some 4, some 12, "t", none⟩ :=
  ⟨(check_http_response_success_iff "https://example.com" "GET" "t" 4
      (.resp 500 12)).1.mpr ⟨500, 12, rfl⟩,
    (check_http_response_success_iff "https://example.com" "GET" "t" 4
      (.resp 500 12)).2.1 500 12 rfl⟩

/-- C8: `_parse_image_name` is total, pure and deterministic: it always
returns a `{registry, repository, tag}` record, and equal inputs produce equal
outputs. -/
theorem parse_image_name_deterministic (n₁ n₂ : String) (o₁ o₂ : Option String)
    (hn : n₁ = n₂) (ho : o₁ = o₂) :
    parse_image_name n₁ o₁ = parse_image_name n₂ o₂ ∧
      ∃ reg repo tag, parse_image_name n₁ o₁ = ⟨reg, repo, tag⟩ := by
  subst hn; subst ho
  exact ⟨rfl, _, _, _, rfl⟩

/-- Witness for C8 at `("hello-world", some "docker.io")`. -/
theorem parse_image_name_deterministic_witness :
    parse_image_name "hello-world" (some "docker.io") =
        parse_image_name "hello-world" (some "docker.io") ∧
      ∃ reg repo tag,
        parse_image_name "hello-world" (some "docker.io") = ⟨reg, repo, tag⟩ :=
  parse_image_name_deterministic "hello-world" "hello-world"
    (some "docker.io") (some "docker.io") rfl rfl

/-- C10: when the reply datagram parses with response code 0, `check_dns`
returns `success=true` and `error=None` even when no records can be produced:
with answer count 0, or with the secondary `getaddrinfo` lookup raising
`gaierror`, the record list is simply empty. -/
theorem check_dns_rcode0_success (domain record_type nameserver now : String)
    (rt tid qt : Nat) (b : List Nat) (gai : GaiOutcome)
    (hq : recordTypes record_type = some qt)
    (hquery : (create_dns_query tid domain qt).isSome = true)
    (hlen : 12 ≤ b.length)
    (hrcode : (b.getD 2 0 * 256 + b.getD 3 0) % 16 = 0)
    (hempty : b.getD 6 0 * 256 + b.getD 7 0 = 0 ∨ ∃ m, gai = Except.error m) :
    (check_dns domain record_type nameserver now rt tid .sent (.datagram b)
        gai).1 = ⟨true, domain, record_type, [], some rt, now, none⟩ := by
  obtain ⟨q, hq2⟩ := Option.isSome_iff_exists.mp hquery
  have hnlt : ¬ b.length < 12 := by omega
  have hr : (b[2]?.getD 0 * 256 + b[3]?.getD 0) % 16 = 0 := by
    simpa [List.getD_eq_getElem?_getD] using hrcode
  rcases hempty with h | ⟨m, hm⟩
  · have ha : b[6]?.getD 0 * 256 + b[7]?.getD 0 = 0 := by
      simpa [List.getD_eq_getElem?_getD] using h
    simp [check_dns, hq, hq2, hnlt, hr, ha]
    rfl
  · subst hm
    simp [check_dns, hq, hq2, hnlt, hr]
    rfl

/-- Bridge from the boolean prefix test to the prefix relation. -/
theorem prefixOf_eq_true [BEq α] [LawfulBEq α] {l₁ l₂ : List α} :
    l₁.isPrefixOf l₂ = true ↔ l₁ <+: l₂ :=
  List.isPrefixOf_iff_prefix

/-- Every piece produced by `splitChar` is free of the separator. -/
theorem splitChar_not_mem (sep : Char) (cs : List Char) :
    ∀ l ∈ splitChar sep cs, sep ∉ l := by
  induction cs with
  | nil =>
    intro l hl
    simp [splitChar] at hl
    simp [hl]
  | cons c t ih =>
    intro l hl
    by_cases hc : c = sep
    · subst hc
      simp [splitChar] at hl
      rcases hl with h | h
      · simp [h]
      · exact ih l h
    · rcases hr : splitChar sep t with _ | ⟨r, rs⟩
      · simp [splitChar, hc, hr] at hl
        subst hl
        intro hmem
        rcases List.mem_cons.mp hmem with h' | h'
        · exact hc h'.symm
        · simp at h'
      · simp [splitChar, hc, hr] at hl
        rcases hl with h | h
        · subst h
          have hr' : sep ∉ r := ih r (by rw [hr]; exact List.mem_cons_self _ _)
          intro hmem
          rcases List.mem_cons.mp hmem with h' | h'
          · exact hc h'.symm
          · exact hr' h'
        · exact ih l (by rw [hr]; exact List.mem_cons_of_mem _ h)

/-- A registry string containing no `/` is untouched by scheme stripping. -/
theorem stripScheme_no_slash (r : List Char) (h : '/' ∉ r) :
    stripScheme r = r := by
  have hb1 : "https://".data.isPrefixOf r = false := by
    simp only [Bool.eq_false_iff, ne_eq, prefixOf_eq_true]
    exact fun hp => h (hp.subset (by decide))
  have hb2 : "http://".data.isPrefixOf r = false := by
    simp only [Bool.eq_false_iff, ne_eq, prefixOf_eq_true]
    exact fun hp => h (hp.subset (by decide))
  simp [stripScheme, hb1, hb2]

/-- Unless the input stacks two scheme prefixes, the result of stripping one
leading scheme prefix starts with neither `https://` nor `http://`. -/
theorem stripScheme_no_scheme (r : List Char) (h : hasDoubledScheme r = false) :
    ¬ "https://".data <+: stripScheme r ∧ ¬ "http://".data <+: stripScheme r := by
  simp only [hasDoubledScheme, Bool.or_eq_false_iff] at h
  obtain ⟨⟨⟨hb1, hb2⟩, hb3⟩, hb4⟩ := h
  have h1 : ¬ "https://https://".data <+: r :=
    fun hx => absurd (prefixOf_eq_true.mpr hx) (Bool.eq_false_iff.mp hb1)
  have h2 : ¬ "https://http://".data <+: r :=
    fun hx => absurd (prefixOf_eq_true.mpr hx) (Bool.eq_false_iff.mp hb2)
  have h3 : ¬ "http://https://".data <+: r :=
    fun hx => absurd (prefixOf_eq_true.mpr hx) (Bool.eq_false_iff.mp hb3)
  have h4 : ¬ "http://http://".data <+: r :=
    fun hx => absurd (prefixOf_eq_true.mpr hx) (Bool.eq_false_iff.mp hb4)
  by_cases hps : "https://".data.isPrefixOf r = true
  · obtain ⟨t, ht⟩ := prefixOf_eq_true.mp hps
    have hdrop : stripScheme r = t := by
      unfold stripScheme
      rw [if_pos hps, ← ht]
      exact List.drop_left' (by decide)
    rw [hdrop]
    constructor
    · intro hx
      obtain ⟨u, hu⟩ := hx
      apply h1
      refine ⟨u, ?_⟩
      rw [show ("https://https://").data = "https://".data ++ "https://".data
        from by decide]
      rw [List.append_assoc, hu]
      exact ht
    · intro hx
      obtain ⟨u, hu⟩ := hx
      apply h2
      refine ⟨u, ?_⟩
      rw [show ("https://http://").data = "https://".data ++ "http://".data
        from by decide]
      rw [List.append_assoc, hu]
      exact ht
  · by_cases hph : "http://".data.isPrefixOf r = true
    · obtain ⟨t, ht⟩ := prefixOf_eq_true.mp hph
      have hdrop : stripScheme r = t := by
        unfold stripScheme
        rw [if_neg hps, if_pos hph, ← ht]
        exact List.drop_left' (by decide)
      rw [hdrop]
      constructor
      · intro hx
        obtain ⟨u, hu⟩ := hx
        apply h3
        refine ⟨u, ?_⟩
        rw [show ("http://https://").data = "http://".data ++ "https://".data
          from by decide]
        rw [List.append_assoc, hu]
        exact ht
      · intro hx
        obtain ⟨u, hu⟩ := hx
        apply h4
        refine ⟨u, ?_⟩
        rw [show ("http://http://").data = "http://".data ++ "http://".data
          from by decide]
        rw [List.append_assoc, hu]
        exact ht
    · have hid : stripScheme r = r := by
        unfold stripScheme
        rw [if_neg hps, if_neg hph]
      rw [hid]
      exact ⟨fun hx => hps (prefixOf_eq_true.mpr hx),
        fun hx => hph (prefixOf_eq_true.mpr hx)⟩

/-- A registry derived from `image_name` itself (no usable override) is a
`/`-free string: either a `/`-split segment or the Docker Hub default. -/
theorem resolveRegistryFromName_fst_no_slash (n : List Char) :
    '/' ∉ (resolveRegistryFromName n).1 := by
  have hhead : '/' ∉ (splitChar '/' n).headD [] := by
    rcases hp : splitChar '/' n with _ | ⟨a, t⟩
    · simp
    · simpa using splitChar_not_mem '/' n a (by rw [hp]; exact List.mem_cons_self _ _)
  unfold resolveRegistryFromName
  dsimp only
  split_ifs with h1 h2
  · exact hhead
  · exact hhead
  · exact (by decide : '/' ∉ defaultRegistry.data)

/-- C7 (counterexample): the registry can retain a leading scheme prefix: an
override of `https://https://reg.com` has only its first `https://` stripped,
so the resulting registry still starts with `https://`. -/
theorem registry_scheme_retained_refuted :
    "https://".data.isPrefixOf
        (parse_image_name "img" (some "https://https://reg.com")).registry.data
      = true := by
  decide

/-- C7 (amended): the registry returned by `_parse_image_name` never starts
with `https://` or `http://` — provided the registry override, when supplied,
does not itself begin with two stacked scheme prefixes (only one prefix is
ever stripped).  With no override the invariant is unconditional, since a
registry parsed out of `image_name` contains no `/` at all. -/
theorem registry_scheme_stripped (image_name : String)
    (registry_override : Option String)
    (hov : ∀ r, registry_override = some r → hasDoubledScheme r.data = false) :
    ¬ "https://".data <+:
        (parse_image_name image_name registry_override).registry.data ∧
      ¬ "http://".data <+:
        (parse_image_name image_name registry_override).registry.data := by
  have hreg : (parse_image_name image_name registry_override).registry.data =
      stripScheme (resolveRegistry image_name.data
        (registry_override.map String.data)).1 := rfl
  rw [hreg]
  rcases registry_override with _ | r
  · have h := resolveRegistryFromName_fst_no_slash image_name.data
    rw [show resolveRegistry image_name.data (Option.map String.data none) =
      resolveRegistryFromName image_name.data from rfl]
    rw [stripScheme_no_slash _ h]
    exact ⟨fun hp => h (hp.subset (by decide)), fun hp => h (hp.subset (by decide))⟩
  · by_cases hr : r.data = []
    · have hre : resolveRegistry image_name.data (Option.map String.data (some r)) =
          resolveRegistryFromName image_name.data := by
        simp [resolveRegistry, hr]
      rw [hre]
      have h := resolveRegistryFromName_fst_no_slash image_name.data
      rw [stripScheme_no_slash _ h]
      exact ⟨fun hp => h (hp.subset (by decide)), fun hp => h (hp.subset (by decide))⟩
    · have hre : (resolveRegistry image_name.data
          (Option.map String.data (some r))).1 = r.data := by
        simp [resolveRegistry, hr]
      rw [hre]
      exact stripScheme_no_scheme r.data (hov r rfl)

/-- Witness for C7: a single-scheme override `https://myreg.com` yields a
registry with no scheme prefix. -/
theorem registry_scheme_stripped_witness :
    (¬ "https://".data <+:
        (parse_image_name "hello-world" (some "https://myreg.com")).registry.data) ∧
      ¬ "http://".data <+:
        (parse_image_name "hello-world" (some "https://myreg.com")).registry.data :=
  registry_scheme_stripped "hello-world" (some "https://myreg.com")
    (fun r h => by injection h with h2; subst h2; decide)

/-- The test `listContains` decides substring containment. -/
theorem listContains_iff_infix [DecidableEq α] (hay needle : List α) :
    listContains hay needle = true ↔ needle <:+: hay := by
  induction hay with
  | nil =>
    simp [listContains, prefixOf_eq_true]
  | cons a t ih =>
    simp [listContains, prefixOf_eq_true, List.infix_cons_iff, ih]

/-- The registry allowlist holds exactly when the host is Docker Hub's default
host, ends with `docker.io`, or contains `daocloud.io`. -/
theorem isDockerHubOrMirror_iff (h : String) :
    isDockerHubOrMirror h = true ↔
      (h = "registry-1.docker.io" ∨ "docker.io".data <:+ h.data ∨
        "daocloud.io".data <:+: h.data) := by
  simp [isDockerHubOrMirror, defaultRegistry, List.isSuffixOf_iff_suffix,
    listContains_iff_infix, or_assoc]

/-- The token endpoint is contacted exactly when the resolved registry is on
the allowlist, on every execution path. -/
theorem tokenRequested_eq (image_name : String) (registry : Option String)
    (now : String) (rt : Nat) (tok : TokenOutcome) (man : ManifestOutcome) :
    (check_image_manifest_sync image_name registry now rt tok man).tokenRequested =
      isDockerHubOrMirror (parse_image_name image_name registry).registry := by
  simp only [check_image_manifest_sync]
  cases tokenStage image_name (parse_image_name image_name registry).registry now rt
      (isDockerHubOrMirror (parse_image_name image_name registry).registry) tok with
  | error r => rfl
  | ok t =>
    cases man with
    | reqExn m => rfl
    | otherExn m => rfl
    | resp s =>
      dsimp only
      split_ifs <;> rfl

/-- A token response that `raise_for_status` lets through and whose body has
no `token` field leaves the stage with no token, whether or not the allowlist
fired. -/
theorem tokenStage_ok_none (image_name host now : String) (rt : Nat)
    (mirror : Bool) (s : Nat) (hs : raisesForStatus s = false) :
    tokenStage image_name host now rt mirror (.resp s (.ok none)) = .ok none := by
  cases mirror <;> simp [tokenStage, hs]

/-- A token response in `raise_for_status`'s range is fatal when the
allowlist fired. -/
theorem tokenStage_fatal (image_name host now : String) (rt : Nat) (s : Nat)
    (body : Except String (Option String)) (hs : raisesForStatus s = true) :
    tokenStage image_name host now rt true (.resp s body) =
      .error (requestErrorResult image_name host now rt (httpErrorMsg s)) := by
  simp [tokenStage, hs]

/-- C4 (counterexample): contrary to the claim, a non-2xx token response is not
always fatal: a 301 token response is below `raise_for_status`'s `[400, 600)`
range, so the probe proceeds (here all the way to a successful manifest check)
instead of failing. -/
theorem token_non2xx_not_fatal_refuted :
    (check_image_manifest_sync "hello-world" none "t" 3
          (.resp 301 (.ok (some "tok"))) (.resp 200)).result =
        some ⟨true, "hello-world", "registry-1.docker.io", 3, "t", none, some 200,
          "Image manifest found (Status: 200)"⟩ ∧
      (check_image_manifest_sync "hello-world" none "t" 3
          (.resp 301 (.ok (some "tok"))) (.resp 200)).tokenRequested = true := by
  decide

/-- C4 (amended): the probe requests a bearer token iff the resolved registry
host equals `registry-1.docker.io`, ends with `docker.io`, or contains
`daocloud.io`; a token response outside `raise_for_status`'s `[400, 600)`
range with no `token` field lets the manifest request proceed without an
`Authorization` header; and a token response inside `[400, 600)` is fatal for
the probe call when the allowlist fired (no manifest request is made).  Only
4xx/5xx token responses are fatal, not every non-2xx one. -/
theorem token_request_policy (image_name : String) (registry : Option String)
    (now : String) (rt : Nat) (tok : TokenOutcome) (man : ManifestOutcome) :
    ((check_image_manifest_sync image_name registry now rt tok man).tokenRequested
          = true ↔
        ((parse_image_name image_name registry).registry = "registry-1.docker.io" ∨
          "docker.io".data <:+ (parse_image_name image_name registry).registry.data ∨
          "daocloud.io".data <:+:
            (parse_image_name image_name registry).registry.data)) ∧
      (∀ s, tok = .resp s (.ok none) → ¬ (400 ≤ s ∧ s < 600) →
        ((check_image_manifest_sync image_name registry now rt tok man).manifestRequest).map
            ManifestRequest.authorization = some none) ∧
      (∀ s body, tok = .resp s body → 400 ≤ s → s < 600 →
        (check_image_manifest_sync image_name registry now rt tok man).tokenRequested
            = true →
        (check_image_manifest_sync image_name registry now rt tok man).result =
            some (requestErrorResult image_name
              (parse_image_name image_name registry).registry now rt
              (httpErrorMsg s)) ∧
          (check_image_manifest_sync image_name registry now rt tok man).manifestRequest
            = none) := by
  refine ⟨?_, ?_, ?_⟩
  · rw [tokenRequested_eq, isDockerHubOrMirror_iff]
  · intro s htok hnot
    subst htok
    have hs : raisesForStatus s = false := by
      unfold raisesForStatus
      exact decide_eq_false hnot
    simp only [check_image_manifest_sync, tokenStage_ok_none _ _ _ _ _ _ hs]
    cases man with
    | reqExn m => rfl
    | otherExn m => rfl
    | resp st =>
      dsimp only
      split_ifs <;> rfl
  · intro s body htok h4 h6 hreq
    subst htok
    rw [tokenRequested_eq] at hreq
    have hs : raisesForStatus s = true := by
      unfold raisesForStatus
      exact decide_eq_true ⟨h4, h6⟩
    constructor <;>
      simp only [check_image_manifest_sync, hreq, tokenStage_fatal _ _ _ _ _ _ hs]

/-- Witness for C4: under Docker Hub, a 200 token response lacking a `token`
field yields an anonymous manifest request, while a 401 token response is
fatal. -/
theorem token_request_policy_witness :
    ((check_image_manifest_sync "hello-world" none "t" 1 (.resp 200 (.ok none))
          (.resp 200)).manifestRequest).map ManifestRequest.authorization =
        some none ∧
      (check_image_manifest_sync "hello-world" none "t" 1 (.resp 401 (.ok none))
          (.resp 200)).result =
        some (requestErrorResult "hello-world"
          (parse_image_name "hello-world" none).registry "t" 1 (httpErrorMsg 401)) := by
  constructor
  · exact (token_request_policy "hello-world" none "t" 1 (.resp 200 (.ok none))
      (.resp 200)).2.1 200 rfl (by omega)
  · exact ((token_request_policy "hello-world" none "t" 1 (.resp 401 (.ok none))
      (.resp 200)).2.2 401 (.ok none) rfl (by omega) (by omega) (by decide)).1

/-- C3 (code bug): for a manifest `HEAD` status that is neither 200 nor 404
nor in `raise_for_status`'s range `[400, 600)` — e.g. a 301 redirect —
`_check_image_manifest_sync` falls off the end of its `try` block and returns
Python `None` instead of the failure dictionary its signature declares: the
`HEAD` request was issued, yet no result mapping is produced. -/
theorem manifest_redirect_returns_none :
    (check_image_manifest_sync "hello-world" none "2026-01-01T00:00:00" 5
        (.resp 200 (.ok (some "tok"))) (.resp 301)).result = none ∧
      (check_image_manifest_sync "hello-world" none "2026-01-01T00:00:00" 5
          (.resp 200 (.ok (some "tok"))) (.resp 301)).manifestRequest.isSome = true := by
  decide

/-- C5 (counterexample): contrary to the claim, a reply datagram shorter than
12 bytes produces a failure result whose `response_time_ms` is `None` — the
`except` handler discards the measured time. -/
theorem check_dns_short_reply_timing_refuted :
    (check_dns "example.com" "A" "8.8.8.8" "t" 7 0 .sent (.datagram [1, 2, 3])
        (Except.ok [])).1.response_time_ms = none ∧
      (check_dns "example.com" "A" "8.8.8.8" "t" 7 0 .sent (.datagram [1, 2, 3])
          (Except.ok [])).1.error = some "Response too short" := by
  decide

/-- C5 (amended): a reply datagram shorter than 12 bytes, or one carrying a
nonzero response code (`flags & 0x000F`), yields a failure result with the
specific error text (the short-response message, or a message embedding the
numeric response code), an empty record list, and `response_time_ms = None`:
although timing is measured before parsing, the exception handler that builds
this result hardcodes a null timing. -/
theorem check_dns_parse_failure_null_timing (domain record_type nameserver now : String)
    (rt tid qt : Nat) (b : List Nat) (gai : GaiOutcome)
    (hq : recordTypes record_type = some qt)
    (hquery : (create_dns_query tid domain qt).isSome = true)
    (hbad : b.length < 12 ∨ (b.getD 2 0 * 256 + b.getD 3 0) % 16 ≠ 0) :
    (check_dns domain record_type nameserver now rt tid .sent (.datagram b) gai).1 =
      ⟨false, domain, record_type, [], none, now,
        some (if b.length < 12 then "Response too short"
          else "DNS response code: " ++
            toString ((b.getD 2 0 * 256 + b.getD 3 0) % 16))⟩ := by
  obtain ⟨q, hq2⟩ := Option.isSome_iff_exists.mp hquery
  by_cases hlt : b.length < 12
  · simp [check_dns, hq, hq2, hlt, dnsFailure]
  · have hne : (b.getD 2 0 * 256 + b.getD 3 0) % 16 ≠ 0 := hbad.resolve_left hlt
    have hr : ¬ (b[2]?.getD 0 * 256 + b[3]?.getD 0) % 16 = 0 := by
      simpa [List.getD_eq_getElem?_getD] using hne
    simp [check_dns, hq, hq2, hlt, hr, dnsFailure]

/-- Witness for C5 at a 12-byte reply with response code 3: the failure result
carries the numeric code in its error text and a null `response_time_ms`. -/
theorem check_dns_parse_failure_null_timing_witness :
    (check_dns "example.com" "A" "8.8.8.8" "t" 7 0 .sent
        (.datagram [0, 0, 0, 3, 0, 0, 0, 0, 0, 0, 0, 0]) (Except.ok [])).1 =
      ⟨false, "example.com", "A", [], none, "t", some "DNS response code: 3"⟩ := by
  rw [check_dns_parse_failure_null_timing "example.com" "A" "8.8.8.8" "t" 7 0 1
    [0, 0, 0, 3, 0, 0, 0, 0, 0, 0, 0, 0] (Except.ok []) rfl (by decide)
    (Or.inr (by decide))]
  decide

/-- C9 (counterexample): contrary to the claim, sockets are not closed on
every exit path: a receive timeout in `check_dns` and a raised connect
exception in `check_port` both return through the `except` handler with the
socket still open. -/
theorem socket_close_refuted :
    (check_port "example.com" 443 "t" 0 (.exn "timed out")).2 =
        SockState.leaked ∧
      (check_dns "example.com" "A" "8.8.8.8" "t" 1 0 .sent (.exn "timed out")
          (Except.ok [])).2 = SockState.leaked := by
  decide

/-- C9 (amended): the probes close their socket only on the paths that complete
the blocking call — `check_port` exactly when `connect_ex` returns an error
code, `check_dns` exactly when the query was encoded, sent, and a datagram
received; every exception path (timeout, resolution failure, encoding error)
leaks the socket, and only an unsupported DNS record type avoids opening one. -/
theorem socket_lifecycle (host : String) (port : Nat) (now₁ : String) (rt₁ : Nat)
    (conn : ConnectOutcome) (domain record_type nameserver now₂ : String)
    (rt₂ tid : Nat) (send : SendOutcome) (recv : RecvOutcome) (gai : GaiOutcome) :
    ((check_port host port now₁ rt₁ conn).2 = SockState.closed ↔
        ∃ n, conn = .code n) ∧
      ((check_dns domain record_type nameserver now₂ rt₂ tid send recv gai).2 =
          SockState.closed ↔
        ∃ qt, recordTypes record_type = some qt ∧
          (create_dns_query tid domain qt).isSome = true ∧
            send = .sent ∧ ∃ b, recv = .datagram b) ∧
      ((check_dns domain record_type nameserver now₂ rt₂ tid send recv gai).2 =
          SockState.notOpened ↔ recordTypes record_type = none) := by
  refine ⟨?_, ?_, ?_⟩
  · cases conn <;> simp [check_port]
  · rcases hq : recordTypes record_type with _ | qt
    · simp [check_dns, hq]
    · rcases hc : create_dns_query tid domain qt with _ | q
      · simp [check_dns, hq, hc]
      · cases send with
        | exn m => simp [check_dns, hq, hc]
        | sent =>
          cases recv with
          | exn m => simp [check_dns, hq, hc]
          | datagram b =>
            have hclosed : (check_dns domain record_type nameserver now₂ rt₂ tid
                .sent (.datagram b) gai).2 = SockState.closed := by
              simp only [check_dns, hq, hc]
              split_ifs <;> rfl
            simp [hclosed, hq, hc]
  · rcases hq : recordTypes record_type with _ | qt
    · simp [check_dns, hq]
    · rcases hc : create_dns_query tid domain qt with _ | q
      · simp [check_dns, hq, hc]
      · cases send with
        | exn m => simp [check_dns, hq, hc]
        | sent =>
          cases recv with
          | exn m => simp [check_dns, hq, hc]
          | datagram b =>
            have hclosed : (check_dns domain record_type nameserver now₂ rt₂ tid
                .sent (.datagram b) gai).2 = SockState.closed := by
              simp only [check_dns, hq, hc]
              split_ifs <;> rfl
            simp [hclosed, hq]

/-- Witness for C10: an all-zero 12-byte reply header (rcode 0, answer count
0) yields `success=true`, `error=None`, empty records. -/
theorem check_dns_rcode0_success_witness :
    (check_dns "example.com" "A" "8.8.8.8" "t" 9 0 .sent
        (.datagram (List.replicate 12 0)) (Except.ok [])).1 =
      ⟨true, "example.com", "A", [], some 9, "t", none⟩ :=
  check_dns_rcode0_success "example.com" "A" "8.8.8.8" "t" 9 0 1
    (List.replicate 12 0) (Except.ok []) rfl (by decide) (by decide)
    (by decide) (Or.inl (by decide))

end ImageCheckAgent
